import Mathlib

/-!
Verification of the poster derivative pipeline of kanime-api-v3.

The development shallowly embeds the relevant Rust sources:
* `src/routes/anime.rs` — the HTTP glue (`push_anime`, `patch_anime`) and the
  inline poster pipeline `export_poster` it invokes,
* `src/gen/anime.rs` — the generation module holding the perceptual-hash
  encoder configuration, the palette suffix logic, the accent-color decoder
  `get_dominant_color` and the title-fitting routine `fit_and_draw_title`,
* `src/types.rs` — the data model (`CachedImage`, `AnimeSeries`,
  `AnimeSeriesPatch`).

Rust strings that are manipulated character-wise (placeholders, titles) are
modelled as `List Char`; every string involved is ASCII, so Rust byte indices
coincide with character indices. Opaque identifiers (cache keys, file names,
error messages) are modelled as `String`. Floating-point computations
(Lanczos resampling, the DCT basis projections, sRGB conversion, font
rasterisation) are modelled as explicit parameters of the pipeline
environment; every integer-level operation applied to their results
(clamping, base83 serialisation, bit packing) is embedded concretely from
the source.
-/

/-! ### Base83 alphabet and codecs

`DIGIT` in `src/routes/anime.rs` (line 214); the same 83-character alphabet is
used by the `blurhash` and `fast_blurhash` crates. The brace and bracket
characters appear verbatim in the Rust constant. -/

def digitChars : List Char :=
  ['0', '1', '2', '3', '4', '5', '6', '7', '8', '9',
   'A', 'B', 'C', 'D', 'E', 'F', 'G', 'H', 'I', 'J', 'K', 'L', 'M',
   'N', 'O', 'P', 'Q', 'R', 'S', 'T', 'U', 'V', 'W', 'X', 'Y', 'Z',
   'a', 'b', 'c', 'd', 'e', 'f', 'g', 'h', 'i', 'j', 'k', 'l', 'm',
   'n', 'o', 'p', 'q', 'r', 's', 't', 'u', 'v', 'w', 'x', 'y', 'z',
   '#', '$', '%', '*', '+', ',', '-', '.', ':', ';', '=', '?', '@',
   '[', ']', '^', '_', '\x7b', '|', '\x7d', '~']

/-- `DIGIT.find(c)` of `src/routes/anime.rs:220`: index of `c` in the base83
alphabet (byte index = character index, the alphabet being ASCII); `none`
models the `Option::None` that the Rust code unwraps with
`.expect("invalid char")`. -/
def digitIndex (c : Char) : Option Nat :=
  digitChars.findIdx? (fun x => x = c)

/-- The folding step of `decode83`: `value *= 83; value += DIGIT.find(c)…`,
with a missing character propagated as `none` (the Rust code panics there). -/
def decodeDigits (l : List Char) : Option Nat :=
  l.foldl (fun acc c => acc.bind (fun v => (digitIndex c).map (fun d => v * 83 + d))) (some 0)

/-- `decode83` of `src/routes/anime.rs:216-223`: base83-decode
`s.chars().skip(start).take(end - start)`. -/
def decode83 (s : List Char) (start stop : Nat) : Option Nat :=
  decodeDigits ((s.drop start).take (stop - start))

/-- `base83::encode(value, length)` of the `blurhash` crate (and
`base83::encode_fixed_to` of `fast_blurhash`): emit exactly `length`
characters, the character for power `83^i` being `DIGIT[value / 83^i % 83]`. -/
def encode83 : Nat → Nat → List Char
  | _, 0 => []
  | v, n + 1 => digitChars.getD (v / 83 ^ n % 83) ' ' :: encode83 v n

theorem digitChars_length : digitChars.length = 83 := by decide

theorem digitIndex_getD : ∀ d < 83, digitIndex (digitChars.getD d ' ') = some d := by decide

theorem encode83_length (v n : Nat) : (encode83 v n).length = n := by
  induction n with
  | zero => rfl
  | succ n ih => simpa [encode83] using ih

theorem encode83_mem (v n : Nat) : ∀ c ∈ encode83 v n, c ∈ digitChars := by
  induction n with
  | zero => simp [encode83]
  | succ n ih =>
    intro c hc
    rcases List.mem_cons.mp hc with h | h
    · subst h
      have hd : v / 83 ^ n % 83 < digitChars.length := by
        simpa [digitChars_length] using Nat.mod_lt (v / 83 ^ n) (by norm_num)
      rw [List.getD_eq_getElem?_getD, List.getElem?_eq_getElem hd]
      exact List.getElem_mem hd
    · exact ih c h

theorem foldl_encode83 (v n a : Nat) :
    ((encode83 v n).foldl
        (fun acc c => acc.bind (fun x => (digitIndex c).map (fun d => x * 83 + d))) (some a))
      = some (a * 83 ^ n + v % 83 ^ n) := by
  induction n generalizing a with
  | zero => simp [encode83, Nat.mod_one]
  | succ n ih =>
    have hd : v / 83 ^ n % 83 < 83 := Nat.mod_lt _ (by norm_num)
    simp only [encode83, List.foldl_cons, Option.some_bind, digitIndex_getD _ hd,
      Option.map_some']
    rw [ih]
    have hmod : v % 83 ^ (n + 1) = v % 83 ^ n + 83 ^ n * (v / 83 ^ n % 83) := by
      rw [pow_succ, Nat.mod_mul]
    rw [hmod]
    ring_nf

theorem decodeDigits_encode83 (v n : Nat) :
    decodeDigits (encode83 v n) = some (v % 83 ^ n) := by
  simpa using foldl_encode83 v n 0

/-! ### The blurhash wire format

Both placeholder encoders of the repository — `blurhash::encode(4, 6, …)` in
`src/routes/anime.rs:243` and
`fast_blurhash::compute_dct_iter(…, 4, 7).into_blurhash()` in
`src/gen/anime.rs:54-57` — serialise the same blurhash format: one size-flag
character, one quantised-maximum character, four characters for the DC
(average colour) term, then two characters per remaining AC term.

The floating-point front end (projection of the pixels onto the DCT basis,
sRGB conversion) is modelled by the `BlurhashFloats` record: each field is
the integer produced at a float-to-integer conversion site of the crates,
before the surrounding clamp, which is embedded concretely below. -/

structure BlurhashFloats where
  /-- floor(actual maximum AC component * 166 - 0.5), before the 0..82 clamp. -/
  rawMax : Int
  /-- sRGB value of the red DC channel (the crates clamp it into 0..255). -/
  dcR : Nat
  /-- sRGB value of the green DC channel. -/
  dcG : Nat
  /-- sRGB value of the blue DC channel. -/
  dcB : Nat
  /-- per-AC-term quantised channel triple, before the 0..18 clamps. -/
  acRaw : Nat → Int × Int × Int

/-- The `f32::max(0., f32::min(18., …))` clamp applied to each quantised AC
channel by the blurhash encoders. -/
def clamp18 (x : Int) : Nat := (max 0 (min 18 x)).toNat

/-- `encode_ac`: pack the three clamped channels as `qr * 19²  + qg * 19 + qb`. -/
def encodeACValue (t : Int × Int × Int) : Nat :=
  clamp18 t.1 * 361 + clamp18 t.2.1 * 19 + clamp18 t.2.2

/-- `f32::max(0., f32::min(82., …))` — the quantised-maximum clamp. -/
def quantisedMax (raw : Int) : Nat := (max 0 (min 82 raw)).toNat

/-- `(r << 16) + (g << 8) + b` — the 24-bit RGB packing used by `encode_dc`
of the blurhash crates and by the palette suffix in `src/gen/anime.rs:64`. -/
def rgb24pack (r g b : Nat) : Nat := r * 65536 + g * 256 + b

/-- `(components_x - 1) + (components_y - 1) * 9` — the blurhash size flag. -/
def sizeFlag (cx cy : Nat) : Nat := (cx - 1) + (cy - 1) * 9

/-- The blurhash string for grid `cx × cy`, given the float-derived
quantities: size flag, quantised maximum (0 when there is no AC term),
4-character DC, two characters per AC term. -/
def blurhashEncode (cx cy : Nat) (fl : BlurhashFloats) : List Char :=
  encode83 (sizeFlag cx cy) 1
    ++ (encode83 (if cx * cy - 1 = 0 then 0 else quantisedMax fl.rawMax) 1
    ++ (encode83 (rgb24pack fl.dcR fl.dcG fl.dcB) 4
    ++ ((List.range (cx * cy - 1)).map (fun i => encode83 (encodeACValue (fl.acRaw i)) 2)).flatten))

theorem encode83_one (v : Nat) : encode83 v 1 = [digitChars.getD (v % 83) ' '] := by
  simp [encode83]

theorem blurhashEncode_length (cx cy : Nat) (fl : BlurhashFloats) :
    (blurhashEncode cx cy fl).length = 6 + 2 * (cx * cy - 1) := by
  have hfun : (List.length ∘ fun i => encode83 (encodeACValue (fl.acRaw i)) 2)
      = fun _ => 2 := by
    funext i; simp [Function.comp, encode83_length]
  simp only [blurhashEncode, List.length_append, List.length_flatten, List.map_map, hfun,
    encode83_length, List.map_const', List.sum_replicate, List.length_range, smul_eq_mul]
  omega

theorem decode83_blurhashEncode (cx cy : Nat) (fl : BlurhashFloats) :
    decode83 (blurhashEncode cx cy fl) 2 6
      = some (rgb24pack fl.dcR fl.dcG fl.dcB % 83 ^ 4) := by
  have h4 : (encode83 (rgb24pack fl.dcR fl.dcG fl.dcB) 4).length = 4 := encode83_length _ _
  simp only [decode83, blurhashEncode, encode83_one, List.singleton_append]
  rw [List.drop_succ_cons, List.drop_succ_cons, List.drop_zero]
  rw [show (6 : Nat) - 2 = 4 from rfl, List.take_left' h4]
  exact decodeDigits_encode83 _ 4

/-! ### Raster images and the codec adapter (the `ril` crate) -/

structure Rgb where
  r : Nat
  g : Nat
  b : Nat
deriving DecidableEq

structure Image where
  width : Nat
  height : Nat
  data : List Rgb
deriving DecidableEq

inductive ImageFormat
  | webp
  | png
deriving DecidableEq

/-- An uploaded image file: the actual format of its bytes, whether those
bytes form a valid image of that format, and the decoded pixel buffer when
they do. -/
structure SourceFile where
  format : ImageFormat
  valid : Bool
  image : Image
deriving DecidableEq

/-- Model of `ril` `Image::from_reader(fmt, reader)`: the decoder for `fmt`
succeeds exactly on a file whose bytes are a valid image of that very format.
Both pipelines pass `ImageFormat::WebP` here (`src/routes/anime.rs:230`,
`src/gen/anime.rs:35`). -/
def fromReader (fmt : ImageFormat) (f : SourceFile) : Except String Image :=
  if f.format = fmt ∧ f.valid = true then .ok f.image else .error "decode failed"

/-- `Image::resize(w, h, ResizeAlgorithm::Lanczos3)`: the buffer becomes
exactly `w × h`; the resampled contents come from the float kernel
`resample`, a parameter of the pipeline environment. -/
def Image.resizeTo (resample : Nat → Nat → Image → List Rgb) (w h : Nat) (img : Image) :
    Image :=
  ⟨w, h, resample w h img⟩

/-! ### Data model (`src/types.rs`) -/

/-- `CachedImage` (`src/types.rs:170-173`); the placeholder string is
modelled as a character list. -/
structure CachedImage where
  key : String
  placeholder : Option (List Char)
deriving DecidableEq

/-- `CachedImage::with_placeholder` (`src/types.rs:180-182`). -/
def CachedImage.with_placeholder (key : String) (placeholder : List Char) : CachedImage :=
  ⟨key, some placeholder⟩

structure MangaReleaseInfo where
  author : String
  volumes : Nat
  chapters : Nat
  release_year : Nat
deriving DecidableEq

structure AnimeReleaseInfo where
  studios : List String
  seasons : Nat
  episodes : Nat
  release_year : Nat
deriving DecidableEq

inductive SeasonKind
  | season
  | movie
  | oav
  | spinOff
deriving DecidableEq

structure Note where
  timestamp : Nat
  author : String
  content : String
deriving DecidableEq

structure SeasonMapping where
  kind : SeasonKind
  label : String
  start_episode : Nat
  end_episode : Nat
  start_chapter : Nat
  end_chapter : Nat
  start_volume : Nat
  end_volume : Nat
  pinned_note : Option Note
deriving DecidableEq

/-- `AnimeSeries` (`src/types.rs:196-206`); titles are modelled as character
lists because the pipeline consumes them character-wise. -/
structure AnimeSeries where
  titles : List (List Char)
  poster : CachedImage
  manga : MangaReleaseInfo
  anime : AnimeReleaseInfo
  mapping : List SeasonMapping
  updated_on : Nat
  created_on : Nat
deriving DecidableEq

/-- `AnimeSeriesPatch` (`src/types.rs:241-262`). The `updated_on` stamp is
overwritten by `seal()` on every use and carries no information here. -/
structure AnimeSeriesPatch where
  titles : Option (List (List Char)) := none
  poster : Option CachedImage := none
  manga : Option MangaReleaseInfo := none
  anime : Option AnimeReleaseInfo := none
  mapping : Option (List SeasonMapping) := none
deriving DecidableEq

/-- `AnimeSeriesPatch::is_empty` (`src/types.rs:265-268`). -/
def AnimeSeriesPatch.is_empty (p : AnimeSeriesPatch) : Bool :=
  p.titles.isNone && p.poster.isNone && p.manga.isNone
    && p.anime.isNone && p.mapping.isNone

/-- `AnimeSeriesPatch::set_poster` (`src/types.rs:274-276`). -/
def AnimeSeriesPatch.set_poster (p : AnimeSeriesPatch) (poster : CachedImage) :
    AnimeSeriesPatch :=
  { p with poster := some poster }

/-! ### The inline poster pipeline of `src/routes/anime.rs` -/

def ANIME_POSTER_FULLRES_FOLDER : String := "fullres"

def ANIME_POSTER_MEDIUM_FOLDER : String := "310x468"

def ANIME_POSTER_MEDIUM_WIDTH : Nat := 310

def ANIME_POSTER_MEDIUM_HEIGHT : Nat := 468

def ANIME_POSTER_PRESENTER_FOLDER : String := "pre"

def ANIME_POSTER_PRESENTER_WIDTH : Nat := ANIME_POSTER_MEDIUM_HEIGHT * 16 / 9

def ANIME_POSTER_PRESENTER_HEIGHT : Nat := ANIME_POSTER_MEDIUM_HEIGHT

/-- One image file written to the cache folder: sub-folder, file name, and
the pixel dimensions of the buffer that was encoded into it. -/
structure FileWrite where
  folder : String
  name : String
  width : Nat
  height : Nat
deriving DecidableEq

/-- The failure stages of `export_poster` (each `?`/`map_err` site of
`src/routes/anime.rs:225-276`, in source order). -/
inductive PipelineError
  | openFail
  | decodeFail
  | saveFullres
  | saveMedium
  | fontFail
  | savePresenter
deriving DecidableEq

/-- Environment of one `export_poster` call: the uploaded file, the success
of every I/O step, and the floating-point backends (Lanczos kernel, DCT
front end) as opaque functions. -/
structure RoutesEnv where
  openOk : Bool
  file : SourceFile
  saveFullresOk : Bool
  saveMediumOk : Bool
  resample : Nat → Nat → Image → List Rgb
  dct : Image → BlurhashFloats
  fontMediumOk : Bool
  fontXboldOk : Bool
  savePresenterOk : Bool

/-- The buffer after the in-place resize of `src/routes/anime.rs:238`. -/
def routes_resized (env : RoutesEnv) : Image :=
  Image.resizeTo env.resample ANIME_POSTER_MEDIUM_WIDTH ANIME_POSTER_MEDIUM_HEIGHT
    env.file.image

/-- The placeholder computed at `src/routes/anime.rs:241-244`:
`blurhash::encode(4, 6, …)` over the resized buffer. -/
def routes_placeholder (env : RoutesEnv) : List Char :=
  blurhashEncode 4 6 (env.dct (routes_resized env))

/-- `export_poster` of `src/routes/anime.rs:225-276`, step by step in source
order. The result is `none` when the Rust code panics (the
`.expect("invalid char")` inside `decode83`, or the unguarded `titles[0]`
at line 261); otherwise it carries the files written so far and the
function's `Result`. -/
def routes_export_poster (recipient : AnimeSeries) (env : RoutesEnv) :
    Option (List FileWrite × Except PipelineError CachedImage) :=
  let key := recipient.poster.key
  let file_name := key ++ ".webp"
  if env.openOk = false then some ([], .error .openFail) else
  match fromReader .webp env.file with
  | .error _ => some ([], .error .decodeFail)
  | .ok image =>
    if env.saveFullresOk = false then some ([], .error .saveFullres) else
    let writes := [⟨ANIME_POSTER_FULLRES_FOLDER, file_name, image.width, image.height⟩]
    let image := Image.resizeTo env.resample
      ANIME_POSTER_MEDIUM_WIDTH ANIME_POSTER_MEDIUM_HEIGHT image
    if env.saveMediumOk = false then some (writes, .error .saveMedium) else
    let writes := writes
      ++ [⟨ANIME_POSTER_MEDIUM_FOLDER, file_name, image.width, image.height⟩]
    let placeholder := blurhashEncode 4 6 (env.dct image)
    match decode83 placeholder 2 6 with
    | none => none
    | some avg_color =>
      let _avgRgb : Rgb := ⟨avg_color / 65536 % 256, avg_color / 256 % 256, avg_color % 256⟩
      if env.fontMediumOk = false then some (writes, .error .fontFail) else
      if env.fontXboldOk = false then some (writes, .error .fontFail) else
      match recipient.titles.head? with
      | none => none
      | some _title =>
        if env.savePresenterOk = false then some (writes, .error .savePresenter) else
        some (writes ++ [⟨ANIME_POSTER_PRESENTER_FOLDER, file_name,
            ANIME_POSTER_PRESENTER_WIDTH, ANIME_POSTER_PRESENTER_HEIGHT⟩],
          .ok (CachedImage.with_placeholder key placeholder))

/-! ### HTTP glue of `src/routes/anime.rs`: `push_anime` and `patch_anime` -/

/-- The uploaded multipart poster: declared content type and temp file. -/
structure PosterUpload where
  contentType : Option String
  file : SourceFile

/-- The HTTP responses the anime routes produce (`KError` helpers of
`src/types.rs` and the success responses). -/
inductive Response
  | badRequest (msg : String)
  | created
  | noContent
  | notFound
  | dbError
  | internalError (msg : String)
deriving DecidableEq

/-- External collaborators of `patch_anime`: the pipeline environment, the
`find_anime` result (`none` covers both a database error and a missing
document — the route turns both into the same bad-request response), and the
`apply_anime_patch` outcome (`ok matched` or a database error). -/
structure PatchEnv where
  exportEnv : RoutesEnv
  findResult : Option AnimeSeries
  applyResult : Except Unit Bool

/-- Tail of `patch_anime` (`src/routes/anime.rs:340-347`): submit the patch
to `apply_anime_patch` and translate its outcome. The second component
records the patch actually submitted to the database. -/
def continue_apply (patch : AnimeSeriesPatch) (applyResult : Except Unit Bool) :
    Response × Option AnimeSeriesPatch :=
  match applyResult with
  | .ok true => (.noContent, some patch)
  | .ok false => (.notFound, some patch)
  | .error _ => (.dbError, some patch)

/-- `patch_anime` of `src/routes/anime.rs:300-348`. `idValid` is the outcome
of `to_oid`; the result is `none` when `export_poster` panics, and otherwise
the HTTP response paired with the patch submitted to the database (if any). -/
def patch_anime (idValid : Bool) (patch : AnimeSeriesPatch) (poster : Option PosterUpload)
    (env : PatchEnv) : Option (Response × Option AnimeSeriesPatch) :=
  if idValid = false then some (.badRequest "The provided ID is not valid", none) else
  if patch.is_empty && poster.isNone then some (.badRequest "Patch is empty", none) else
  match poster with
  | none => some (continue_apply patch env.applyResult)
  | some up =>
    if up.contentType = some "image/webp" ∨ up.contentType = some "image/png" then
      match env.findResult with
      | none => some (.badRequest "The provided ID is not valid", none)
      | some anime =>
        match routes_export_poster anime env.exportEnv with
        | none => none
        | some (_, .ok poster) => some (continue_apply (patch.set_poster poster) env.applyResult)
        | some (_, .error _) =>
          if patch.is_empty then some (.internalError "Could not generate image set", none)
          else some (continue_apply patch env.applyResult)
    else some (.badRequest "Only webp or png images are supported", none)

/-- `KEY_ALPHABET` of `src/routes/anime.rs:18` — note the missing `L` and
`l`. -/
def KEY_ALPHABET : List Char :=
  "ABCDEFGHIJKMNOPQRSTUVWXYZabcdefghijkmnopqrstuvwxyz0123456789".toList

/-- `push_anime` of `src/routes/anime.rs:185-206`. `generatedKey` stands for
`random_string::generate(20, KEY_ALPHABET)`; `insertResult` is the database
outcome (the hex ObjectId on success). The second component is the document
actually stored: the payload, unchanged. -/
def push_anime (payload : AnimeSeries) (_generatedKey : String)
    (insertResult : Option String) : Response × Option (String × AnimeSeries) :=
  match insertResult with
  | some id => (.created, some (id, payload))
  | none => (.dbError, none)

/-! ### The generation module `src/gen/anime.rs` -/

def ANIME_PLACEHOLDER_COMPONENTS_X : Nat := 4

def ANIME_PLACEHOLDER_COMPONENTS_Y : Nat := 7

/-- `((r as u32) << 16) | ((g as u32) << 8) | (b as u32)` — the bit-level
packing of a palette swatch (`src/gen/anime.rs:64`). -/
def rgb24or (r g b : Nat) : Nat := r <<< 16 ||| g <<< 8 ||| b

theorem rgb24or_eq_pack (r g b : Nat) (hg : g < 256) (hb : b < 256) :
    rgb24or r g b = rgb24pack r g b := by
  unfold rgb24or rgb24pack
  rw [Nat.shiftLeft_eq, Nat.shiftLeft_eq]
  have h1 : (2 : Nat) ^ 16 * r + g * 2 ^ 8 = 2 ^ 16 * r ||| g * 2 ^ 8 :=
    Nat.mul_add_lt_is_or (by nlinarith [hg]) r
  have h2 : (2 : Nat) ^ 8 * (2 ^ 8 * r + g) + b = 2 ^ 8 * (2 ^ 8 * r + g) ||| b :=
    Nat.mul_add_lt_is_or (by omega) _
  have e1 : r * 2 ^ 16 ||| g * 2 ^ 8 = 2 ^ 16 * r + g * 2 ^ 8 := by
    rw [Nat.mul_comm r]; exact h1.symm
  rw [e1]
  have e2 : (2 : Nat) ^ 16 * r + g * 2 ^ 8 = 2 ^ 8 * (2 ^ 8 * r + g) := by ring
  rw [e2, ← h2]
  ring

/-- Environment of one `gen::anime::export_poster` call
(`src/gen/anime.rs:32-70`): the uploaded file, success of each I/O step
(`File::create` and the WebP encode are separate failure points for each
artifact), and the float backends. `palette` models
`color_thief::get_palette(&pixels, ColorFormat::Rgb, 10, 5)`: `some` is the
`Ok` palette — swatches ordered from most to least prominent, channels fitting
in `u8` — and `none` is an extraction failure. -/
structure GenEnv where
  openOk : Bool
  file : SourceFile
  createFullresOk : Bool
  encodeFullresOk : Bool
  createMediumOk : Bool
  encodeMediumOk : Bool
  resample : Nat → Nat → Image → List Rgb
  dct : Image → BlurhashFloats
  palette : Image → Option (List Rgb)

/-- The buffer after the in-place resize of `src/gen/anime.rs:47`. -/
def gen_resized (env : GenEnv) : Image :=
  Image.resizeTo env.resample ANIME_POSTER_MEDIUM_WIDTH ANIME_POSTER_MEDIUM_HEIGHT
    env.file.image

/-- The blurhash body computed at `src/gen/anime.rs:54-57`:
`compute_dct_iter(pixels, w, h, 4, 7).into_blurhash()`. -/
def gen_placeholder_body (env : GenEnv) : List Char :=
  blurhashEncode ANIME_PLACEHOLDER_COMPONENTS_X ANIME_PLACEHOLDER_COMPONENTS_Y
    (env.dct (gen_resized env))

/-- `export_poster` of `src/gen/anime.rs:32-70`. The result is `none` when
the Rust code panics (`palette[2]` on a palette shorter than 3); otherwise
the files written so far and the function's `Result`. -/
def gen_export_poster (cache_key : String) (env : GenEnv) :
    Option (List FileWrite × Except PipelineError CachedImage) :=
  let file_name := cache_key ++ ".webp"
  if env.openOk = false then some ([], .error .openFail) else
  match fromReader .webp env.file with
  | .error _ => some ([], .error .decodeFail)
  | .ok image =>
    if env.createFullresOk = false then some ([], .error .saveFullres) else
    if env.encodeFullresOk = false then some ([], .error .saveFullres) else
    let writes := [⟨ANIME_POSTER_FULLRES_FOLDER, file_name, image.width, image.height⟩]
    let image := Image.resizeTo env.resample
      ANIME_POSTER_MEDIUM_WIDTH ANIME_POSTER_MEDIUM_HEIGHT image
    if env.createMediumOk = false then some (writes, .error .saveMedium) else
    if env.encodeMediumOk = false then some (writes, .error .saveMedium) else
    let writes := writes
      ++ [⟨ANIME_POSTER_MEDIUM_FOLDER, file_name, image.width, image.height⟩]
    let placeholder := blurhashEncode ANIME_PLACEHOLDER_COMPONENTS_X
      ANIME_PLACEHOLDER_COMPONENTS_Y (env.dct image)
    match env.palette image with
    | some palette =>
      match palette[2]? with
      | none => none
      | some dominant =>
        let color := rgb24or dominant.r dominant.g dominant.b
        some (writes, .ok (CachedImage.with_placeholder cache_key
          (placeholder ++ '/' :: encode83 color 4)))
    | none => some (writes, .ok (CachedImage.with_placeholder cache_key placeholder))

/-- `str::split_once('/')`: split at the first occurrence of the separator,
which is dropped. -/
def splitOnce (sep : Char) : List Char → Option (List Char × List Char)
  | [] => none
  | c :: rest =>
    if c = sep then some ([], rest)
    else (splitOnce sep rest).map (fun p => (c :: p.1, p.2))

/-- `fast_blurhash::base83::decode`: same alphabet and folding as `decode83`,
an `Err` (here `none`) on a character outside the alphabet. -/
def base83_decode (s : List Char) : Option Nat := decodeDigits s

/-- `Rgb::new((color >> 16) as u8, (color >> 8) as u8, color as u8)` — the
unpacking shared by `src/gen/anime.rs:78` and `src/routes/anime.rs:246`. -/
def rgbOfColor (v : Nat) : Rgb := ⟨v / 65536 % 256, v / 256 % 256, v % 256⟩

/-- `get_dominant_color` of `src/gen/anime.rs:72-79`. The outer `Option` is
`none` exactly when the Rust code panics (the sub-slices `&right[..4]` and
`&blurhash[2..6]` would be out of bounds); the inner `Option` is the
function's own return value (`None` when base83 decoding fails). -/
def get_dominant_color (blurhash : List Char) : Option (Option Rgb) :=
  match splitOnce '/' blurhash with
  | some (_, right) =>
    if right.length < 4 then none
    else some ((base83_decode (right.take 4)).map rgbOfColor)
  | none =>
    if blurhash.length < 6 then none
    else some ((base83_decode ((blurhash.drop 2).take 4)).map rgbOfColor)

/-- The truncation at the top of `fit_and_draw_title`
(`src/gen/anime.rs:83-85`): titles longer than 585 are cut to 585. -/
def truncate_title (text : List Char) : List Char :=
  if text.length > 585 then text.take 585 else text

/-- The retry loop of `fit_and_draw_title` (`src/gen/anime.rs:88-102`).
`measure size` is the measured height of the word-wrapped layout of the
(already truncated) title at font size `size` — a float computation of the
`ril` crate, passed as a parameter. The loop accepts the first size that
fits the box height or reaches the floor of 16, decrementing by 1
otherwise. Font sizes in the repository are whole numbers (start 64, step
1.0, floor 16), so sizes are modelled as `Nat`. -/
def fit_loop (measure : Nat → Nat) (maxHeight : Nat) (size : Nat) : Nat :=
  if h : measure size ≤ maxHeight ∨ size ≤ 16 then size
  else fit_loop measure maxHeight (size - 1)
termination_by size
decreasing_by push_neg at h; omega

/-- `fit_and_draw_title` of `src/gen/anime.rs:81-105`: truncate the title,
then shrink the font size until the layout fits. Returns the size at which
the title is drawn together with the text drawn. -/
def fit_and_draw_title (measure : List Char → Nat → Nat) (maxHeight : Nat)
    (text : List Char) (size : Nat) : Nat × List Char :=
  let text := truncate_title text
  (fit_loop (measure text) maxHeight size, text)

/-- `TITLE_BASE_FONT_SIZE` of `src/gen/anime.rs:134`; `export_presenter`
calls `fit_and_draw_title` with it and a 212-pixel box height
(`src/gen/anime.rs:139-140`). -/
def TITLE_BASE_FONT_SIZE : Nat := 64

/-! ### Properties of the fitting loop and of `split_once` -/

theorem fit_loop_spec (measure : Nat → Nat) (maxHeight : Nat) : ∀ size,
    fit_loop measure maxHeight size ≤ size
    ∧ (measure (fit_loop measure maxHeight size) ≤ maxHeight
        ∨ fit_loop measure maxHeight size ≤ 16)
    ∧ (∀ s, fit_loop measure maxHeight size < s → s ≤ size →
        maxHeight < measure s ∧ 16 < s)
    ∧ (16 ≤ size → 16 ≤ fit_loop measure maxHeight size) := by
  intro size
  induction size using Nat.strong_induction_on with
  | _ size ih =>
    rw [fit_loop]
    by_cases h : measure size ≤ maxHeight ∨ size ≤ 16
    · rw [dif_pos h]
      exact ⟨Nat.le_refl _, h, fun s h1 h2 => absurd (Nat.lt_of_lt_of_le h1 h2) (Nat.lt_irrefl _),
        fun _ => by omega⟩
    · rw [dif_neg h]
      push_neg at h
      obtain ⟨h1, h2⟩ := h
      obtain ⟨ihle, ihfit, ihfirst, ihmin⟩ := ih (size - 1) (by omega)
      refine ⟨by omega, ihfit, ?_, fun _ => ihmin (by omega)⟩
      intro s hs1 hs2
      by_cases hs3 : s ≤ size - 1
      · exact ihfirst s hs1 hs3
      · have : s = size := by omega
        subst this
        exact ⟨h1, h2⟩

theorem splitOnce_eq_none_iff (sep : Char) (l : List Char) :
    splitOnce sep l = none ↔ sep ∉ l := by
  induction l with
  | nil => simp [splitOnce]
  | cons c rest ih =>
    by_cases hc : c = sep
    · subst hc
      simp [splitOnce]
    · simp only [splitOnce, hc, if_false, Option.map_eq_none', ih, List.mem_cons]
      constructor
      · intro hn hmem
        rcases hmem with h | h
        · exact hc h.symm
        · exact hn h
      · intro hn
        exact fun h => hn (Or.inr h)

theorem splitOnce_eq_some (sep : Char) : ∀ (l pre post : List Char),
    splitOnce sep l = some (pre, post) → l = pre ++ sep :: post ∧ sep ∉ pre := by
  intro l
  induction l with
  | nil => intro pre post h; simp [splitOnce] at h
  | cons c rest ih =>
    intro pre post h
    by_cases hc : c = sep
    · subst hc
      simp only [splitOnce, if_pos rfl, Option.some_inj, Prod.mk.injEq] at h
      obtain ⟨rfl, rfl⟩ := h
      simp
    · simp only [splitOnce, if_neg hc, Option.map_eq_some'] at h
      obtain ⟨⟨p1, p2⟩, hsp, heq⟩ := h
      simp only [Prod.mk.injEq] at heq
      obtain ⟨hpre, hpost⟩ := heq
      obtain ⟨hl, hmem⟩ := ih p1 p2 hsp
      subst hpost
      rw [← hpre, hl]
      refine ⟨rfl, ?_⟩
      intro hin
      rcases List.mem_cons.mp hin with h | h
      · exact hc h.symm
      · exact hmem h

theorem splitOnce_isSome_of_mem (sep : Char) (l : List Char) (h : sep ∈ l) :
    ∃ pre post, splitOnce sep l = some (pre, post) := by
  rcases he : splitOnce sep l with _ | ⟨pre, post⟩
  · exact absurd ((splitOnce_eq_none_iff sep l).mp he) (by simpa using h)
  · exact ⟨pre, post, rfl⟩

/-! ### Concrete sample inputs -/

def idResample : Nat → Nat → Image → List Rgb := fun _ _ img => img.data

def constFloats : BlurhashFloats := ⟨0, 10, 20, 30, fun _ => (0, 0, 0)⟩

def sampleWebpFile : SourceFile := ⟨.webp, true, ⟨1200, 1800, []⟩⟩

def samplePngFile : SourceFile := ⟨.png, true, ⟨1200, 1800, []⟩⟩

def corruptWebpFile : SourceFile := ⟨.webp, false, ⟨0, 0, []⟩⟩

def sampleRoutesEnv : RoutesEnv :=
  { openOk := true, file := sampleWebpFile, saveFullresOk := true, saveMediumOk := true,
    resample := idResample, dct := fun _ => constFloats,
    fontMediumOk := true, fontXboldOk := true, savePresenterOk := true }

def sampleAnime : AnimeSeries :=
  { titles := [['T', 'i', 't', 'l', 'e']],
    poster := ⟨"clientkey", none⟩,
    manga := ⟨"Author", 30, 270, 2017⟩,
    anime := ⟨["Studio"], 1, 24, 2021⟩,
    mapping := [],
    updated_on := 0, created_on := 0 }

/-! ### The claims -/

/-- **C2.** The placeholder body of the generation pipeline is the blurhash
serialisation over the fixed component grid of `src/gen/anime.rs:24-25` —
4 columns × 7 rows — and its length (size flag, quantised maximum, four DC
characters, two characters per remaining AC term) is `4 + 2·(4·7) = 60`,
a function of the grid alone: any two pipeline environments, hence any two
input images of any dimensions, produce bodies of identical length. -/
theorem gen_placeholder_body_length_constant (e1 e2 : GenEnv) :
    (gen_placeholder_body e1).length = (gen_placeholder_body e2).length
    ∧ (gen_placeholder_body e1).length
      = 4 + 2 * (ANIME_PLACEHOLDER_COMPONENTS_X * ANIME_PLACEHOLDER_COMPONENTS_Y)
    ∧ ANIME_PLACEHOLDER_COMPONENTS_X = 4 ∧ ANIME_PLACEHOLDER_COMPONENTS_Y = 7 := by
  unfold gen_placeholder_body ANIME_PLACEHOLDER_COMPONENTS_X ANIME_PLACEHOLDER_COMPONENTS_Y
  rw [blurhashEncode_length, blurhashEncode_length]
  norm_num

/-- **C9.** Accent extraction from a pipeline placeholder is total: on every
blurhash string the four characters at positions 2..6 are the DC segment, so
the character lookup inside `decode83` cannot hit the invalid-character
panic and the decoded value is below `83⁴`; with the DC channels in the
0..255 range that `linear_to_srgb` produces, the value decoded from the
pipeline placeholder is the 24-bit packed DC colour, below `2²⁴`. -/
theorem decode83_placeholder_total (env : RoutesEnv)
    (hr : (env.dct (routes_resized env)).dcR ≤ 255)
    (hg : (env.dct (routes_resized env)).dcG ≤ 255)
    (hb : (env.dct (routes_resized env)).dcB ≤ 255) :
    (∀ (fl : BlurhashFloats) (cx cy : Nat),
        ∃ v, decode83 (blurhashEncode cx cy fl) 2 6 = some v ∧ v < 83 ^ 4)
    ∧ decode83 (routes_placeholder env) 2 6
      = some (rgb24pack (env.dct (routes_resized env)).dcR
          (env.dct (routes_resized env)).dcG (env.dct (routes_resized env)).dcB)
    ∧ rgb24pack (env.dct (routes_resized env)).dcR
        (env.dct (routes_resized env)).dcG (env.dct (routes_resized env)).dcB < 2 ^ 24 := by
  have hdc : rgb24pack (env.dct (routes_resized env)).dcR
      (env.dct (routes_resized env)).dcG (env.dct (routes_resized env)).dcB < 2 ^ 24 := by
    unfold rgb24pack
    omega
  refine ⟨fun fl cx cy => ⟨_, decode83_blurhashEncode cx cy fl, Nat.mod_lt _ (by norm_num)⟩,
    ?_, hdc⟩
  unfold routes_placeholder
  rw [decode83_blurhashEncode]
  congr 1
  exact Nat.mod_eq_of_lt (lt_trans hdc (by norm_num))

theorem decode83_placeholder_total_witness :
    decode83 (routes_placeholder sampleRoutesEnv) 2 6
      = some (rgb24pack (sampleRoutesEnv.dct (routes_resized sampleRoutesEnv)).dcR
          (sampleRoutesEnv.dct (routes_resized sampleRoutesEnv)).dcG
          (sampleRoutesEnv.dct (routes_resized sampleRoutesEnv)).dcB)
    ∧ rgb24pack (sampleRoutesEnv.dct (routes_resized sampleRoutesEnv)).dcR
        (sampleRoutesEnv.dct (routes_resized sampleRoutesEnv)).dcG
        (sampleRoutesEnv.dct (routes_resized sampleRoutesEnv)).dcB < 2 ^ 24 :=
  (decode83_placeholder_total sampleRoutesEnv (by decide) (by decide) (by decide)).2

/-- **C7.** Presenter title rendering (`fit_and_draw_title`,
`src/gen/anime.rs:81-105`, invoked by `export_presenter` with base size
`TITLE_BASE_FONT_SIZE = 64` and a 212-pixel title box): the title is first
truncated to the fixed 585-character budget, then laid out starting at the
initial font size; every size above the chosen one (up to the start)
overflows the box while being above the floor, and the chosen size either
fits the box or has reached the floor of 16 — the first fitting size, or
the floor, whichever comes first. -/
theorem fit_and_draw_title_spec (measure : List Char → Nat → Nat) (maxHeight : Nat)
    (text : List Char) (size : Nat) :
    (fit_and_draw_title measure maxHeight text size).2 = text.take 585
    ∧ ((fit_and_draw_title measure maxHeight text size).2).length = min text.length 585
    ∧ (fit_and_draw_title measure maxHeight text size).1 ≤ size
    ∧ (measure (text.take 585) (fit_and_draw_title measure maxHeight text size).1 ≤ maxHeight
        ∨ (fit_and_draw_title measure maxHeight text size).1 ≤ 16)
    ∧ (∀ s, (fit_and_draw_title measure maxHeight text size).1 < s → s ≤ size →
        maxHeight < measure (text.take 585) s ∧ 16 < s)
    ∧ (16 ≤ size → 16 ≤ (fit_and_draw_title measure maxHeight text size).1) := by
  have htr : truncate_title text = text.take 585 := by
    unfold truncate_title
    by_cases h : text.length > 585
    · rw [if_pos h]
    · rw [if_neg h]
      exact (List.take_of_length_le (by omega)).symm
  have hpair : fit_and_draw_title measure maxHeight text size
      = (fit_loop (measure (text.take 585)) maxHeight size, text.take 585) := by
    simp only [fit_and_draw_title, htr]
  rw [hpair]
  obtain ⟨h1, h2, h3, h4⟩ := fit_loop_spec (measure (text.take 585)) maxHeight size
  refine ⟨rfl, ?_, h1, h2, h3, h4⟩
  rw [List.length_take, Nat.min_comm]

theorem fit_and_draw_title_spec_witness :
    16 ≤ (fit_and_draw_title (fun _ s => if 30 ≤ s then 300 else 100) 212
        (List.replicate 600 'a') 64).1 :=
  (fit_and_draw_title_spec (fun _ s => if 30 ≤ s then 300 else 100) 212
    (List.replicate 600 'a') 64).2.2.2.2.2 (by decide)

/-- **C6.** `get_dominant_color` (`src/gen/anime.rs:72-79`) recovers the
accent colour by branching on the `/` separator: with one present (new
format) the four characters after the first `/` are decoded; with none
(legacy fallback) the fixed slice at positions 2..6 of the body itself is
decoded. -/
theorem accent_decoding_branches_on_separator (s : List Char) :
    ('/' ∈ s → ∃ pre post, s = pre ++ '/' :: post ∧ '/' ∉ pre
        ∧ (4 ≤ post.length →
            get_dominant_color s = some ((base83_decode (post.take 4)).map rgbOfColor)))
    ∧ ('/' ∉ s → 6 ≤ s.length →
        get_dominant_color s = some ((base83_decode ((s.drop 2).take 4)).map rgbOfColor)) := by
  constructor
  · intro hmem
    obtain ⟨pre, post, hsp⟩ := splitOnce_isSome_of_mem '/' s hmem
    obtain ⟨heq, hpre⟩ := splitOnce_eq_some '/' s pre post hsp
    refine ⟨pre, post, heq, hpre, ?_⟩
    intro hlen
    unfold get_dominant_color
    rw [hsp]
    simp only [if_neg (show ¬(post.length < 4) by omega)]
  · intro hmem hlen
    unfold get_dominant_color
    rw [(splitOnce_eq_none_iff '/' s).mpr hmem]
    simp only [if_neg (show ¬(s.length < 6) by omega)]

theorem accent_decoding_branches_on_separator_witness :
    (∃ pre post, (['A', 'B', '0', '1', '2', '3', '/', 'w', 'x', 'y', 'z'] : List Char)
          = pre ++ '/' :: post ∧ '/' ∉ pre
        ∧ (4 ≤ post.length →
            get_dominant_color ['A', 'B', '0', '1', '2', '3', '/', 'w', 'x', 'y', 'z']
              = some ((base83_decode (post.take 4)).map rgbOfColor)))
    ∧ get_dominant_color ['A', 'B', '0', '1', '2', '3']
        = some ((base83_decode (((['A', 'B', '0', '1', '2', '3'] : List Char).drop 2).take 4)).map
            rgbOfColor) :=
  ⟨(accent_decoding_branches_on_separator _).1 (by decide),
   (accent_decoding_branches_on_separator _).2 (by decide) (by decide)⟩

/-- **C3.** Whenever palette extraction over the resized buffer succeeds
(with the at-least-three swatches that `palette[2]` requires), the emitted
placeholder is the hash body, a `/` separator, and exactly four base83
characters encoding, as 24-bit RGB (`(r << 16) | (g << 8) | b`), the third
palette swatch — `palette[2]`, the palette being ordered from most to least
prominent. -/
theorem palette_suffix_format (key : String) (env : GenEnv) (pal : List Rgb) (dom : Rgb)
    (hopen : env.openOk = true) (hfmt : env.file.format = .webp)
    (hval : env.file.valid = true)
    (hcf : env.createFullresOk = true) (hef : env.encodeFullresOk = true)
    (hcm : env.createMediumOk = true) (hem : env.encodeMediumOk = true)
    (hpal : env.palette (gen_resized env) = some pal)
    (hdom : pal[2]? = some dom)
    (hg : dom.g < 256) (hb : dom.b < 256) :
    gen_export_poster key env
      = some ([⟨ANIME_POSTER_FULLRES_FOLDER, key ++ ".webp",
                env.file.image.width, env.file.image.height⟩,
               ⟨ANIME_POSTER_MEDIUM_FOLDER, key ++ ".webp",
                ANIME_POSTER_MEDIUM_WIDTH, ANIME_POSTER_MEDIUM_HEIGHT⟩],
          .ok (CachedImage.with_placeholder key
            (gen_placeholder_body env ++ '/' :: encode83 (rgb24pack dom.r dom.g dom.b) 4)))
    ∧ (encode83 (rgb24pack dom.r dom.g dom.b) 4).length = 4
    ∧ (∀ c ∈ encode83 (rgb24pack dom.r dom.g dom.b) 4, c ∈ digitChars) := by
  have hpal' : env.palette
      { width := ANIME_POSTER_MEDIUM_WIDTH, height := ANIME_POSTER_MEDIUM_HEIGHT,
        data := env.resample ANIME_POSTER_MEDIUM_WIDTH ANIME_POSTER_MEDIUM_HEIGHT
          env.file.image } = some pal := by
    simpa [gen_resized, Image.resizeTo] using hpal
  refine ⟨?_, encode83_length _ _, encode83_mem _ _⟩
  simp [gen_export_poster, fromReader, hopen, hfmt, hval, hcf, hef, hcm, hem,
    Image.resizeTo, gen_placeholder_body, gen_resized, hpal', hdom,
    rgb24or_eq_pack dom.r dom.g dom.b hg hb]

/-- Witness environment for the palette path: a three-swatch palette. -/
def samplePaletteEnv : GenEnv :=
  { openOk := true, file := sampleWebpFile,
    createFullresOk := true, encodeFullresOk := true,
    createMediumOk := true, encodeMediumOk := true,
    resample := idResample, dct := fun _ => constFloats,
    palette := fun _ => some [⟨250, 250, 250⟩, ⟨0, 0, 0⟩, ⟨120, 30, 200⟩] }

theorem palette_suffix_format_witness :
    gen_export_poster "k" samplePaletteEnv
      = some ([⟨ANIME_POSTER_FULLRES_FOLDER, "k" ++ ".webp",
                samplePaletteEnv.file.image.width, samplePaletteEnv.file.image.height⟩,
               ⟨ANIME_POSTER_MEDIUM_FOLDER, "k" ++ ".webp",
                ANIME_POSTER_MEDIUM_WIDTH, ANIME_POSTER_MEDIUM_HEIGHT⟩],
          .ok (CachedImage.with_placeholder "k"
            (gen_placeholder_body samplePaletteEnv
              ++ '/' :: encode83 (rgb24pack 120 30 200) 4)))
    ∧ (encode83 (rgb24pack 120 30 200) 4).length = 4
    ∧ (∀ c ∈ encode83 (rgb24pack 120 30 200) 4, c ∈ digitChars) :=
  palette_suffix_format "k" samplePaletteEnv [⟨250, 250, 250⟩, ⟨0, 0, 0⟩, ⟨120, 30, 200⟩]
    ⟨120, 30, 200⟩ rfl rfl rfl rfl rfl rfl rfl rfl rfl (by decide) (by decide)

/-- **C10.** The routes `export_poster` reads `titles[0]` with no emptiness
guard: with at least one title it never panics, whatever the environment;
with an empty titles list it panics (the out-of-bounds index) as soon as
every earlier stage succeeds. -/
theorem export_poster_titles_total :
    (∀ (anime : AnimeSeries) (env : RoutesEnv), anime.titles ≠ [] →
        routes_export_poster anime env ≠ none)
    ∧ (∀ (anime : AnimeSeries) (env : RoutesEnv), anime.titles = [] →
        env.openOk = true → env.file.format = .webp → env.file.valid = true →
        env.saveFullresOk = true → env.saveMediumOk = true →
        env.fontMediumOk = true → env.fontXboldOk = true →
        routes_export_poster anime env = none) := by
  constructor
  · intro anime env hne
    obtain ⟨t, ts, hts⟩ := List.exists_cons_of_ne_nil hne
    simp only [routes_export_poster, hts, List.head?_cons, decode83_blurhashEncode]
    split
    · simp
    · split
      · simp
      · split
        · simp
        · split
          · simp
          · split
            · simp
            · split
              · simp
              · split <;> simp
  · intro anime env hemp h1 h2 h3 h4 h5 h6 h7
    simp [routes_export_poster, fromReader, h1, h2, h3, h4, h5, h6, h7, hemp,
      decode83_blurhashEncode]

theorem export_poster_titles_total_witness :
    routes_export_poster sampleAnime sampleRoutesEnv ≠ none
    ∧ routes_export_poster { sampleAnime with titles := [] } sampleRoutesEnv = none :=
  ⟨(export_poster_titles_total).1 sampleAnime sampleRoutesEnv (by decide),
   (export_poster_titles_total).2 { sampleAnime with titles := [] } sampleRoutesEnv
     rfl rfl rfl rfl rfl rfl rfl rfl⟩

/-- **C1** (failing input). A valid PNG upload: `patch_anime` accepts the
`image/png` content type (`src/routes/anime.rs:313`), but `export_poster`
decodes with the hard-coded WebP decoder
(`Image::from_reader(ImageFormat::WebP, …)`, line 230), so decoding fails,
no file is written, and a poster-only patch is answered with an internal
error instead of producing a full-resolution artifact of the source
dimensions. -/
theorem png_upload_accepted_but_undecodable :
    routes_export_poster sampleAnime { sampleRoutesEnv with file := samplePngFile }
      = some ([], .error .decodeFail)
    ∧ patch_anime true {} (some ⟨some "image/png", samplePngFile⟩)
        ⟨{ sampleRoutesEnv with file := samplePngFile }, some sampleAnime, .ok true⟩
      = some (.internalError "Could not generate image set", none) := by
  constructor <;> rfl

/-- **C8** (failing input). `push_anime` generates a 20-character random key
from the restricted alphabet (`src/routes/anime.rs:189`) but never attaches
it: the stored entity keeps the client-supplied poster key, and
`export_poster` names all three output files after that stored key — not the
generated one — returning a `CachedImage` bearing that same stored key. -/
theorem push_anime_discards_generated_key :
    (push_anime sampleAnime "ABCDEFGHIJKMNPQRSTUV" (some "63b44f977ef2f272e15f61ca")).2
      = some ("63b44f977ef2f272e15f61ca", sampleAnime)
    ∧ sampleAnime.poster.key = "clientkey"
    ∧ ("clientkey" : String) ≠ "ABCDEFGHIJKMNPQRSTUV"
    ∧ ("ABCDEFGHIJKMNPQRSTUV".toList.length = 20
        ∧ ∀ c ∈ "ABCDEFGHIJKMNPQRSTUV".toList, c ∈ KEY_ALPHABET)
    ∧ (routes_export_poster sampleAnime sampleRoutesEnv).map
        (fun r => r.1.map FileWrite.name)
      = some ["clientkey.webp", "clientkey.webp", "clientkey.webp"]
    ∧ (routes_export_poster sampleAnime sampleRoutesEnv).map
        (fun r => match r.2 with | .ok c => c.key | .error _ => "")
      = some "clientkey" := by
  refine ⟨rfl, rfl, by decide, by decide, ?_, ?_⟩ <;> rfl

/-- **C4** (counterexample). A patch whose only change is the poster: a
presenter-stage failure (the font load) aborts `export_poster`, and
`patch_anime` answers with an internal error — the triggering operation does
*not* succeed — although fullres and thumbnail had already been written. -/
theorem presenter_failure_fails_poster_only_patch :
    patch_anime true {} (some ⟨some "image/webp", sampleWebpFile⟩)
        ⟨{ sampleRoutesEnv with fontMediumOk := false }, some sampleAnime, .ok true⟩
      = some (.internalError "Could not generate image set", none)
    ∧ routes_export_poster sampleAnime { sampleRoutesEnv with fontMediumOk := false }
      = some ([⟨"fullres", "clientkey.webp", 1200, 1800⟩,
               ⟨"310x468", "clientkey.webp", 310, 468⟩], .error .fontFail) := by
  constructor <;> rfl

/-- Shared glue fact: when `export_poster` fails, `patch_anime` returns an
internal error for a poster-only patch and otherwise applies the remaining
patch with the poster left unset (`src/routes/anime.rs:317-331`). -/
theorem patch_anime_export_error (patch : AnimeSeriesPatch) (up : PosterUpload)
    (env : PatchEnv) (anime : AnimeSeries) (w : List FileWrite) (e : PipelineError)
    (hct : up.contentType = some "image/webp" ∨ up.contentType = some "image/png")
    (hfind : env.findResult = some anime)
    (hexp : routes_export_poster anime env.exportEnv = some (w, .error e)) :
    (patch.is_empty = true →
        patch_anime true patch (some up) env
          = some (.internalError "Could not generate image set", none))
    ∧ (patch.is_empty = false →
        patch_anime true patch (some up) env = some (continue_apply patch env.applyResult)) := by
  constructor <;> intro hemp <;>
    simp [patch_anime, if_pos hct, hfind, hexp, hemp]

/-- **C4** (amended). When a patch triggers presenter generation and a
presenter-stage failure occurs (either font load, or the presenter write),
the already-written fullres and thumbnail artifacts remain — the write log
holds exactly those two files and nothing deletes or rewrites them — but the
triggering operation succeeds only when the patch carries at least one other
field (the failure is merely logged and the poster left unset); when the
poster was the only change, the operation fails with an internal error. -/
theorem presenter_failure_policy (patch : AnimeSeriesPatch) (up : PosterUpload)
    (env : PatchEnv) (anime : AnimeSeries)
    (hct : up.contentType = some "image/webp" ∨ up.contentType = some "image/png")
    (hfind : env.findResult = some anime)
    (hopen : env.exportEnv.openOk = true) (hfmt : env.exportEnv.file.format = .webp)
    (hval : env.exportEnv.file.valid = true)
    (hsf : env.exportEnv.saveFullresOk = true) (hsm : env.exportEnv.saveMediumOk = true)
    (hfail : env.exportEnv.fontMediumOk = false ∨ env.exportEnv.fontXboldOk = false
      ∨ (anime.titles ≠ [] ∧ env.exportEnv.savePresenterOk = false)) :
    (∃ e, (e = PipelineError.fontFail ∨ e = PipelineError.savePresenter)
      ∧ routes_export_poster anime env.exportEnv
        = some ([⟨ANIME_POSTER_FULLRES_FOLDER, anime.poster.key ++ ".webp",
                  env.exportEnv.file.image.width, env.exportEnv.file.image.height⟩,
                 ⟨ANIME_POSTER_MEDIUM_FOLDER, anime.poster.key ++ ".webp",
                  ANIME_POSTER_MEDIUM_WIDTH, ANIME_POSTER_MEDIUM_HEIGHT⟩], .error e))
    ∧ (patch.is_empty = true →
        patch_anime true patch (some up) env
          = some (.internalError "Could not generate image set", none))
    ∧ (patch.is_empty = false →
        patch_anime true patch (some up) env = some (continue_apply patch env.applyResult)) := by
  have hexp : ∃ e, (e = PipelineError.fontFail ∨ e = PipelineError.savePresenter)
      ∧ routes_export_poster anime env.exportEnv
        = some ([⟨ANIME_POSTER_FULLRES_FOLDER, anime.poster.key ++ ".webp",
                  env.exportEnv.file.image.width, env.exportEnv.file.image.height⟩,
                 ⟨ANIME_POSTER_MEDIUM_FOLDER, anime.poster.key ++ ".webp",
                  ANIME_POSTER_MEDIUM_WIDTH, ANIME_POSTER_MEDIUM_HEIGHT⟩], .error e) := by
    rcases hfm : env.exportEnv.fontMediumOk with _ | _
    · exact ⟨.fontFail, Or.inl rfl, by
        simp [routes_export_poster, fromReader, hopen, hfmt, hval, hsf, hsm, hfm,
          decode83_blurhashEncode, Image.resizeTo]⟩
    · rcases hfx : env.exportEnv.fontXboldOk with _ | _
      · exact ⟨.fontFail, Or.inl rfl, by
          simp [routes_export_poster, fromReader, hopen, hfmt, hval, hsf, hsm, hfm, hfx,
            decode83_blurhashEncode, Image.resizeTo]⟩
      · rcases hfail with h | h | ⟨hne, hsp⟩
        · exact absurd h (by simp [hfm])
        · exact absurd h (by simp [hfx])
        · obtain ⟨t, ts, hts⟩ := List.exists_cons_of_ne_nil hne
          exact ⟨.savePresenter, Or.inr rfl, by
            simp [routes_export_poster, fromReader, hopen, hfmt, hval, hsf, hsm, hfm, hfx,
              hsp, hts, decode83_blurhashEncode, Image.resizeTo]⟩
  obtain ⟨e, he, hexp⟩ := hexp
  exact ⟨⟨e, he, hexp⟩,
    (patch_anime_export_error patch up env anime _ e hct hfind hexp).1,
    (patch_anime_export_error patch up env anime _ e hct hfind hexp).2⟩

theorem presenter_failure_policy_witness :
    (∃ e, (e = PipelineError.fontFail ∨ e = PipelineError.savePresenter)
      ∧ routes_export_poster sampleAnime
          ({ sampleRoutesEnv with fontXboldOk := false } : RoutesEnv)
        = some ([⟨ANIME_POSTER_FULLRES_FOLDER, sampleAnime.poster.key ++ ".webp",
                  sampleWebpFile.image.width, sampleWebpFile.image.height⟩,
                 ⟨ANIME_POSTER_MEDIUM_FOLDER, sampleAnime.poster.key ++ ".webp",
                  ANIME_POSTER_MEDIUM_WIDTH, ANIME_POSTER_MEDIUM_HEIGHT⟩], .error e))
    ∧ (AnimeSeriesPatch.is_empty {} = true →
        patch_anime true {} (some ⟨some "image/webp", sampleWebpFile⟩)
          ⟨{ sampleRoutesEnv with fontXboldOk := false }, some sampleAnime, .ok true⟩
          = some (.internalError "Could not generate image set", none))
    ∧ (AnimeSeriesPatch.is_empty {} = false →
        patch_anime true {} (some ⟨some "image/webp", sampleWebpFile⟩)
          ⟨{ sampleRoutesEnv with fontXboldOk := false }, some sampleAnime, .ok true⟩
          = some (continue_apply {} (.ok true))) :=
  presenter_failure_policy {} ⟨some "image/webp", sampleWebpFile⟩
    ⟨{ sampleRoutesEnv with fontXboldOk := false }, some sampleAnime, .ok true⟩
    sampleAnime (Or.inl rfl) rfl rfl rfl rfl rfl rfl (Or.inr (Or.inl rfl))

/-- A patch carrying a titles change, used in counterexamples. -/
def titlesPatch : AnimeSeriesPatch := { titles := some [['X']] }

/-- **C5** (counterexample). A decode failure in the derivative pipeline is
*not* surfaced to the caller when the patch carries other fields: with a
titles change plus a corrupt upload, `export_poster` fails at decode, yet
`patch_anime` answers `204 No Content` — a success — and quietly applies the
rest of the patch without a poster. -/
theorem decode_failure_swallowed_when_patch_nonempty :
    patch_anime true titlesPatch (some ⟨some "image/webp", corruptWebpFile⟩)
        ⟨{ sampleRoutesEnv with file := corruptWebpFile }, some sampleAnime, .ok true⟩
      = some (.noContent, some titlesPatch)
    ∧ routes_export_poster sampleAnime { sampleRoutesEnv with file := corruptWebpFile }
      = some ([], .error .decodeFail)
    ∧ Response.noContent ≠ .internalError "Could not generate image set" :=
  ⟨rfl, rfl, by decide⟩

/-- **C5** (amended). Every failure in decode or in the fullres/thumbnail
write path aborts the derivative-generation call at that stage: the call
returns an error, at most the fullres artifact has been written, and neither
the placeholder nor the presenter artifact is produced. The failure is
surfaced to the caller as a single internal error only when the patch
contains no other fields; otherwise it is logged, the poster left unchanged,
and the rest of the patch is applied. -/
theorem derivative_failure_policy (patch : AnimeSeriesPatch) (up : PosterUpload)
    (env : PatchEnv) (anime : AnimeSeries)
    (hct : up.contentType = some "image/webp" ∨ up.contentType = some "image/png")
    (hfind : env.findResult = some anime)
    (hfail : env.exportEnv.openOk = false
      ∨ (env.exportEnv.openOk = true
          ∧ (env.exportEnv.file.format ≠ .webp ∨ env.exportEnv.file.valid = false))
      ∨ (env.exportEnv.openOk = true ∧ env.exportEnv.file.format = .webp
          ∧ env.exportEnv.file.valid = true ∧ env.exportEnv.saveFullresOk = false)
      ∨ (env.exportEnv.openOk = true ∧ env.exportEnv.file.format = .webp
          ∧ env.exportEnv.file.valid = true ∧ env.exportEnv.saveFullresOk = true
          ∧ env.exportEnv.saveMediumOk = false)) :
    (∃ w e, routes_export_poster anime env.exportEnv = some (w, .error e)
      ∧ (∀ fw ∈ w, fw.folder ≠ ANIME_POSTER_PRESENTER_FOLDER
          ∧ fw.folder ≠ ANIME_POSTER_MEDIUM_FOLDER)
      ∧ w.length ≤ 1)
    ∧ (patch.is_empty = true →
        patch_anime true patch (some up) env
          = some (.internalError "Could not generate image set", none))
    ∧ (patch.is_empty = false →
        patch_anime true patch (some up) env = some (continue_apply patch env.applyResult)) := by
  have hexp : ∃ w e, routes_export_poster anime env.exportEnv = some (w, .error e)
      ∧ (∀ fw ∈ w, fw.folder ≠ ANIME_POSTER_PRESENTER_FOLDER
          ∧ fw.folder ≠ ANIME_POSTER_MEDIUM_FOLDER)
      ∧ w.length ≤ 1 := by
    rcases hfail with h | ⟨h1, h2⟩ | ⟨h1, h2, h3, h4⟩ | ⟨h1, h2, h3, h4, h5⟩
    · exact ⟨[], .openFail, by simp [routes_export_poster, h], by simp, by simp⟩
    · have hfr : fromReader .webp env.exportEnv.file = .error "decode failed" := by
        unfold fromReader
        rw [if_neg]
        rintro ⟨hh1, hh2⟩
        rcases h2 with h2 | h2
        · exact h2 hh1
        · rw [h2] at hh2; cases hh2
      exact ⟨[], .decodeFail, by simp [routes_export_poster, h1, hfr], by simp, by simp⟩
    · exact ⟨[], .saveFullres,
        by simp [routes_export_poster, fromReader, h1, h2, h3, h4], by simp, by simp⟩
    · refine ⟨[⟨ANIME_POSTER_FULLRES_FOLDER, anime.poster.key ++ ".webp",
          env.exportEnv.file.image.width, env.exportEnv.file.image.height⟩],
        .saveMedium,
        by simp [routes_export_poster, fromReader, h1, h2, h3, h4, h5], ?_, by simp⟩
      intro fw hfw
      simp only [List.mem_singleton] at hfw
      subst hfw
      exact ⟨(by decide : ANIME_POSTER_FULLRES_FOLDER ≠ ANIME_POSTER_PRESENTER_FOLDER),
        (by decide : ANIME_POSTER_FULLRES_FOLDER ≠ ANIME_POSTER_MEDIUM_FOLDER)⟩
  obtain ⟨w, e, hexp, hfold, hlen⟩ := hexp
  exact ⟨⟨w, e, hexp, hfold, hlen⟩,
    (patch_anime_export_error patch up env anime w e hct hfind hexp).1,
    (patch_anime_export_error patch up env anime w e hct hfind hexp).2⟩

theorem derivative_failure_policy_witness :
    (∃ w e, routes_export_poster sampleAnime
        ({ sampleRoutesEnv with file := corruptWebpFile } : RoutesEnv) = some (w, .error e)
      ∧ (∀ fw ∈ w, fw.folder ≠ ANIME_POSTER_PRESENTER_FOLDER
          ∧ fw.folder ≠ ANIME_POSTER_MEDIUM_FOLDER)
      ∧ w.length ≤ 1)
    ∧ (AnimeSeriesPatch.is_empty titlesPatch = true →
        patch_anime true titlesPatch (some ⟨some "image/webp", corruptWebpFile⟩)
          ⟨{ sampleRoutesEnv with file := corruptWebpFile }, some sampleAnime, .ok true⟩
          = some (.internalError "Could not generate image set", none))
    ∧ (AnimeSeriesPatch.is_empty titlesPatch = false →
        patch_anime true titlesPatch (some ⟨some "image/webp", corruptWebpFile⟩)
          ⟨{ sampleRoutesEnv with file := corruptWebpFile }, some sampleAnime, .ok true⟩
          = some (continue_apply titlesPatch (.ok true))) :=
  derivative_failure_policy titlesPatch ⟨some "image/webp", corruptWebpFile⟩
    ⟨{ sampleRoutesEnv with file := corruptWebpFile }, some sampleAnime, .ok true⟩
    sampleAnime (Or.inl rfl) rfl (Or.inr (Or.inl ⟨rfl, Or.inr rfl⟩))
